import Mathlib

/-!
Shallow embedding of the ocpp2twc bridge (src/ocpp2twc/twc.py and
src/ocpp2twc/server.py) and proofs of the spec claims about it.

Modelling conventions:
 - Python floats become Rat, Python ints become Int or Nat (evse_state is a
   small Nat code 0..4, as in TWCSimulator.EVSE_STATES).
 - datetime values become Int (seconds since epoch); every operation that
   reads the wall clock takes an explicit now argument.
 - Mutating methods become functions from the state to the new state, paired
   with the returned value where the source returns one.
 - Logging calls are dropped; they do not affect state.
-/

namespace Ocpp2Twc

/-- The Vitals dataclass of twc.py.  The current_alerts field (a list that no
modelled operation ever touches) is omitted. -/
structure Vitals where
  contactor_closed : Bool := false
  vehicle_connected : Bool := false
  session_s : Int := 0
  grid_v : Rat := 0
  grid_hz : Rat := 0
  vehicle_current_a : Rat := 0
  currentA_a : Rat := 0
  currentB_a : Rat := 0
  currentC_a : Rat := 0
  currentN_a : Rat := 0
  voltageA_v : Rat := 0
  voltageB_v : Rat := 0
  voltageC_v : Rat := 0
  relay_coil_v : Rat := 0
  pcba_temp_c : Rat := 0
  handle_temp_c : Rat := 0
  mcu_temp_c : Rat := 0
  uptime_s : Int := 0
  input_thermopile_uv : Rat := 0
  prox_v : Rat := 0
  pilot_high_v : Rat := 0
  pilot_low_v : Rat := 0
  session_energy_wh : Rat := 0
  total_energy_wh : Rat := 0
  config_status : Int := 0
  evse_state : Nat := 0
  deriving DecidableEq

/-- The mutable fields of class TWCSimulator (twc.py).  max_power is the
constant 11000 and is kept as a definition below. -/
structure TWCSimulator where
  vitals : Vitals := {}
  start_time : Int
  charging_start_time : Option Int := none
  ocpp_connected : Bool := false
  last_seen : Int
  deriving DecidableEq

def max_power : Int := 11000

/-- TWCSimulator.__init__: fresh vitals, no charging start time, OCPP not
connected; start_time and last_seen are taken at construction time. -/
def TWCSimulator.init (now : Int) : TWCSimulator :=
  { vitals := {}, start_time := now, charging_start_time := none,
    ocpp_connected := false, last_seen := now }

/-- TWCSimulator.charging property: derived from vitals. -/
def TWCSimulator.charging (s : TWCSimulator) : Bool :=
  s.vitals.contactor_closed && (s.vitals.evse_state == 3)

/-- TWCSimulator.set_enabled.  Returns the new state and the boolean result
(False only when enabling while in the error state). -/
def TWCSimulator.set_enabled (s : TWCSimulator) (enabled : Bool) (now : Int) :
    TWCSimulator × Bool :=
  if enabled then
    if s.vitals.evse_state = 4 then          -- error
      (s, false)
    else if s.vitals.vehicle_connected then
      ({ s with
          vitals := { s.vitals with evse_state := 3, contactor_closed := true },
          charging_start_time :=
            if s.charging_start_time = none then some now
            else s.charging_start_time }, true)
    else
      ({ s with vitals := { s.vitals with evse_state := 2 } }, true)
  else
    ({ s with
        vitals := { s.vitals with evse_state := 1, contactor_closed := false },
        charging_start_time := none }, true)

/-- TWCSimulator.set_vehicle_connected.  Always returns True in the source. -/
def TWCSimulator.set_vehicle_connected (s : TWCSimulator) (connected : Bool)
    (now : Int) : TWCSimulator × Bool :=
  let s1 := { s with vitals := { s.vitals with vehicle_connected := connected } }
  if connected = false then
    let s2 := { s1 with
      vitals := { s1.vitals with contactor_closed := false },
      charging_start_time := none }
    if s2.vitals.evse_state ≠ 1 ∧ s2.vitals.evse_state ≠ 4 then
      ({ s2 with vitals := { s2.vitals with evse_state := 2 } }, true)
    else
      (s2, true)
  else
    if s1.vitals.evse_state = 2 then
      ({ s1 with
          vitals := { s1.vitals with evse_state := 3, contactor_closed := true },
          charging_start_time :=
            if s1.charging_start_time = none then some now
            else s1.charging_start_time }, true)
    else
      (s1, true)

/-- TWCSimulator.set_error.  Clearing the error re-enters through the disabled
state and then calls set_enabled(True). -/
def TWCSimulator.set_error (s : TWCSimulator) (has_error : Bool) (now : Int) :
    TWCSimulator :=
  if has_error then
    { s with
        vitals := { s.vitals with evse_state := 4, contactor_closed := false },
        charging_start_time := none }
  else
    let s1 := { s with vitals := { s.vitals with evse_state := 1 } }
    (s1.set_enabled true now).1

/-- TWCSimulator.set_ocpp_connected. -/
def TWCSimulator.set_ocpp_connected (s : TWCSimulator) (connected : Bool)
    (now : Int) : TWCSimulator :=
  if connected then
    { s with ocpp_connected := true, last_seen := now }
  else
    { s with
        ocpp_connected := false,
        vitals := { s.vitals with evse_state := 0, contactor_closed := false },
        charging_start_time := none }

/-- TWCSimulator.update_from_client.  The currents/voltages dicts built by
on_meter_values always carry the keys L1, L2, L3, N, so they are modelled as
a record of the four phase entries (the .get defaults of the source are then
never exercised by its only caller).  The timestamp string becomes
Option Int: none models an absent timestamp.  power is received but, as in
the source, never used. -/
structure PhaseMap where
  l1 : Rat := 0
  l2 : Rat := 0
  l3 : Rat := 0
  n : Rat := 0
  deriving DecidableEq

def TWCSimulator.update_from_client (s : TWCSimulator) (power : Rat)
    (currents : PhaseMap) (voltages : PhaseMap) (frequency : Rat)
    (session_energy : Rat) (total_energy : Rat) (pcba_temp_c : Rat)
    (timestamp : Option Int) (now : Int) : TWCSimulator × Bool :=
  let v := s.vitals
  -- Update all electrical values directly from client
  let v := { v with
    currentA_a := currents.l1, currentB_a := currents.l2,
    currentC_a := currents.l3, currentN_a := currents.n }
  -- Sum of phase currents for vehicle total
  let v := { v with vehicle_current_a :=
    (List.filter (fun c => 0 < c) [v.currentA_a, v.currentB_a, v.currentC_a]).sum }
  -- Update voltages per phase
  let v := { v with
    voltageA_v := voltages.l1, voltageB_v := voltages.l2, voltageC_v := voltages.l3 }
  -- Calculate grid voltage as average of phases
  let active_voltages :=
    List.filter (fun x => 2 < x) [v.voltageA_v, v.voltageB_v, v.voltageC_v]
  let v := { v with
    grid_v :=
      if active_voltages.length ≠ 0 then
        active_voltages.sum / (active_voltages.length : Rat)
      else 230,
    grid_hz := frequency }
  -- Update both energy counters
  let v := { v with session_energy_wh := session_energy, total_energy_wh := total_energy }
  -- Update session time if we are charging
  let v :=
    match s.charging_start_time with
    | some t0 =>
        match timestamp with
        | some charge_time => { v with session_s := charge_time - t0 }
        | none => v
    | none => { v with session_s := 0 }
  -- Update pilot signal values based on state
  let v := { v with
    pilot_high_v := if v.evse_state = 2 ∨ v.evse_state = 3 then 12 else 0,
    pilot_low_v := if v.evse_state = 2 ∨ v.evse_state = 3 then 12 else 0,
    relay_coil_v := if v.contactor_closed then 12 else 0 }
  -- Update uptime
  let v := { v with uptime_s := now - s.start_time }
  -- Fixed temperature values
  let v := { v with pcba_temp_c := pcba_temp_c, handle_temp_c := 20, mcu_temp_c := 20 }
  ({ s with vitals := v }, true)

/-! ## server.py: ChargingSession and ChargePoint -/

/-- The ChargingSession dataclass of server.py. -/
structure ChargingSession where
  id_tag : String
  transaction_id : Int
  meter_start : Int
  start_time : Int
  total_energy_start : Rat := 0
  session_energy : Rat := 0
  deriving DecidableEq

/-- The mutable fields of class ChargePoint (server.py): the TWC simulator it
drives, the active transaction id, and the single remembered session. -/
structure ChargePoint where
  twc : TWCSimulator
  transaction_id : Option Int := none
  last_session : Option ChargingSession := none
  deriving DecidableEq

/-- ChargePoint.__init__: no transaction, no remembered session, and the
constructor calls twc.set_ocpp_connected(True). -/
def ChargePoint.init (twc : TWCSimulator) (now : Int) : ChargePoint :=
  { twc := twc.set_ocpp_connected true now,
    transaction_id := none, last_session := none }

/-- The TWC-state effect of ChargePoint.on_status_notification.  The handler
only reads/writes the simulator, so it is factored over TWCSimulator and
lifted to ChargePoint below. -/
def status_notification_twc (twc : TWCSimulator) (error_code status : String)
    (now : Int) : TWCSimulator :=
  if error_code ≠ "NoError" then
    twc.set_error true now
  else
    let twc := twc.set_error false now
    if status = "Charging" then
      (twc.set_vehicle_connected true now).1
    else if status = "SuspendedEVSE" then
      -- Car is connected but not charging (contactors open)
      let twc := (twc.set_vehicle_connected true now).1
      { twc with vitals := { twc.vitals with evse_state := 2, contactor_closed := false } }
    else if status = "SuspendedEV" then
      -- Car requested charging stop
      let twc := (twc.set_vehicle_connected true now).1
      { twc with vitals := { twc.vitals with evse_state := 2, contactor_closed := false } }
    else
      (twc.set_vehicle_connected false now).1

/-- ChargePoint.on_status_notification (state effect; the returned payload is
empty). -/
def ChargePoint.on_status_notification (cp : ChargePoint) (connector_id : Int)
    (error_code status : String) (now : Int) : ChargePoint :=
  { cp with twc := status_notification_twc cp.twc error_code status now }

/-- ChargePoint.on_start_transaction.  The timestamp string becomes
Option Int: none models a string datetime.fromisoformat rejects, in which
case the source falls back to now.  Returns the new state and the
transaction_id sent back in the payload. -/
def ChargePoint.on_start_transaction (cp : ChargePoint) (connector_id : Int)
    (id_tag : String) (meter_start : Int) (timestamp : Option Int) (now : Int) :
    ChargePoint × Int :=
  let timestamp_dt := timestamp.getD now
  let tid := timestamp_dt
  -- Store current total energy as start point
  let total_energy_start := cp.twc.vitals.total_energy_wh
  -- Check if we have a previous session with same ID
  let session_energy : Rat :=
    match cp.last_session with
    | some ls => if ls.id_tag = id_tag then ls.session_energy else 0
    | none => 0
  ({ cp with
      transaction_id := some tid,
      last_session := some
        { id_tag := id_tag, transaction_id := tid, meter_start := meter_start,
          start_time := timestamp_dt, total_energy_start := total_energy_start,
          session_energy := session_energy } }, tid)

/-- ChargePoint.on_stop_transaction (state effect).  The source only logs the
remembered session and unconditionally clears the active transaction; the
transaction_id argument is never compared against anything. -/
def ChargePoint.on_stop_transaction (cp : ChargePoint) (meter_stop : Int)
    (timestamp : Int) (transaction_id : Int) : ChargePoint :=
  { cp with transaction_id := none }

/-- One entry of a sampled_value list in a MeterValues event.  The value
string is modelled already parsed to Rat (float(sv.get('value', '0'))); the
unit field is only logged by the source and is omitted.  An absent measurand
or phase is the empty string, matching the .get defaults. -/
structure SampledValue where
  measurand : String := ""
  value : Rat := 0
  phase : String := ""
  deriving DecidableEq

/-- One reading of a MeterValues event: its sampled_value list and optional
timestamp. -/
structure MeterReading where
  sampled_value : List SampledValue := []
  timestamp : Option Int := none
  deriving DecidableEq

/-- The local accumulator variables of the processing loop in
ChargePoint.on_meter_values, with their initial values. -/
structure ProcessedValues where
  currents : PhaseMap := {}
  voltages : PhaseMap := {}
  powers : PhaseMap := {}
  frequency : Rat := 50
  session_energy : Rat := 0
  total_energy : Rat := 0
  temperature : Rat := 20
  current_offered : Rat := 0
  power_offered : Rat := 0
  interval_energy_reported : Bool := false
  deriving DecidableEq

/-- dict[phase] = value for the phase-keyed dicts of on_meter_values.  A
phase tag other than L1/L2/L3/N would be stored in the Python dict but is
never read back by update_from_client, so it is dropped here. -/
def PhaseMap.set (m : PhaseMap) (phase : String) (value : Rat) : PhaseMap :=
  if phase = "L1" then { m with l1 := value }
  else if phase = "L2" then { m with l2 := value }
  else if phase = "L3" then { m with l3 := value }
  else if phase = "N" then { m with n := value }
  else m

/-- The body of the per-sampled-value dispatch in on_meter_values. -/
def process_sampled_value (acc : ProcessedValues) (sv : SampledValue) :
    ProcessedValues :=
  if sv.measurand = "Current.Import" ∧ sv.phase ≠ "" then
    { acc with currents := acc.currents.set sv.phase sv.value }
  else if sv.measurand = "Current.Offered" then
    { acc with current_offered := sv.value }
  else if sv.measurand = "Voltage" ∧ sv.phase ≠ "" then
    { acc with voltages := acc.voltages.set sv.phase sv.value }
  else if sv.measurand = "Power.Active.Import" ∧ sv.phase ≠ "" then
    { acc with powers := acc.powers.set sv.phase sv.value }
  else if sv.measurand = "Power.Offered" then
    { acc with power_offered := sv.value }
  else if sv.measurand = "Frequency" then
    { acc with frequency := sv.value }
  else if sv.measurand = "Energy.Active.Import.Register" then
    { acc with total_energy := sv.value }
  else if sv.measurand = "Energy.Active.Import.Interval" then
    { acc with session_energy := sv.value, interval_energy_reported := true }
  else if sv.measurand = "Temperature" then
    { acc with temperature := sv.value }
  else
    acc

/-- The body of the for-loop over readings in ChargePoint.on_meter_values:
process one reading's sampled values, derive session energy when no explicit
interval value was reported, and push the result into the TWC simulator. -/
def ChargePoint.on_meter_values_reading (cp : ChargePoint)
    (sampled_values : List SampledValue) (timestamp : Option Int) (now : Int) :
    ChargePoint :=
  let pv := sampled_values.foldl process_sampled_value ({} : ProcessedValues)
  -- Only compute session energy if not reported directly
  let cp :=
    if pv.interval_energy_reported = false then
      match cp.last_session with
      | some ls =>
          let session_energy := pv.total_energy - ls.total_energy_start
          let ls2 := { ls with session_energy := max 0 session_energy }
          { cp with last_session := some ls2 }
      | none => cp
    else cp
  -- Update TWC with latest values
  let session_for_twc : Rat :=
    match cp.last_session with
    | some ls => ls.session_energy
    | none => 0
  let twc := (cp.twc.update_from_client
    (pv.powers.l1 + pv.powers.l2 + pv.powers.l3)
    pv.currents pv.voltages pv.frequency session_for_twc pv.total_energy
    pv.temperature timestamp now).1
  { cp with twc := twc }

/-- ChargePoint.on_meter_values (state effect): an empty meter_value list is
a no-op, otherwise every reading is processed in order. -/
def ChargePoint.on_meter_values (cp : ChargePoint) (connector_id : Int)
    (meter_value : List MeterReading) (now : Int) : ChargePoint :=
  if meter_value = [] then cp
  else meter_value.foldl
    (fun cp r => cp.on_meter_values_reading r.sampled_value r.timestamp now) cp

/-! ## Reachability of TWC states

The state machine of the claims: an initial simulator, transformed by any
sequence of set_enabled / set_vehicle_connected / set_error /
set_ocpp_connected calls and status-notification handling, each at an
arbitrary wall-clock instant. -/

inductive Reachable : TWCSimulator → Prop
  | init (now : Int) : Reachable (TWCSimulator.init now)
  | set_enabled (s : TWCSimulator) (b : Bool) (now : Int) :
      Reachable s → Reachable (s.set_enabled b now).1
  | set_vehicle_connected (s : TWCSimulator) (b : Bool) (now : Int) :
      Reachable s → Reachable (s.set_vehicle_connected b now).1
  | set_error (s : TWCSimulator) (b : Bool) (now : Int) :
      Reachable s → Reachable (s.set_error b now)
  | set_ocpp_connected (s : TWCSimulator) (b : Bool) (now : Int) :
      Reachable s → Reachable (s.set_ocpp_connected b now)
  | status_notification (s : TWCSimulator) (error_code status : String) (now : Int) :
      Reachable s → Reachable (status_notification_twc s error_code status now)

/-- The inductive invariant: a closed contactor means the EVSE is in the
charging state and a vehicle is connected.  The second conjunct is the
strengthening needed for preservation (it rules out reaching ready with the
contactor still closed through set_enabled / error-clear). -/
def Inv (s : TWCSimulator) : Prop :=
  s.vitals.contactor_closed = true →
    s.vitals.evse_state = 3 ∧ s.vitals.vehicle_connected = true

/-! ## Concrete inputs used by the claim theorems and witnesses -/

/-- A freshly started session for the TEST tag: zero energy so far. -/
def sessionTEST : ChargingSession :=
  { id_tag := "TEST", transaction_id := 1000, meter_start := 0,
    start_time := 1000, total_energy_start := 0, session_energy := 0 }

/-- A charge point with an active transaction 1000 for sessionTEST. -/
def cpTEST : ChargePoint :=
  { twc := TWCSimulator.init 0, transaction_id := some 1000,
    last_session := some sessionTEST }

/-- A meter-values event reporting cumulative energy 50 Wh together with an
explicit interval energy of 50 Wh. -/
def eventInterval50 : List MeterReading :=
  [{ sampled_value :=
      [{ measurand := "Energy.Active.Import.Register", value := 50 },
       { measurand := "Energy.Active.Import.Interval", value := 50 }],
     timestamp := some 1005 }]

/-- The spec scenario of claim C2, step by step: fresh bridge, start with
id_tag TEST, meter values with total 50 and explicit interval 50, stop, and
a second start with TEST. -/
def scenarioStart1 : ChargePoint :=
  ((ChargePoint.init (TWCSimulator.init 0) 0).on_start_transaction
    1 "TEST" 0 (some 1000) 0).1

def scenarioMeter : ChargePoint :=
  scenarioStart1.on_meter_values 1 eventInterval50 0

def scenarioStop : ChargePoint :=
  scenarioMeter.on_stop_transaction 50 2000 1000

def scenarioStart2 : ChargePoint :=
  (scenarioStop.on_start_transaction 1 "TEST" 0 (some 2000) 0).1

/-- A reachable state whose contactor is closed: connect a vehicle, then
enable. -/
def chargingState : TWCSimulator :=
  (((TWCSimulator.init 0).set_vehicle_connected true 0).1.set_enabled true 0).1

/-- A session whose recorded total energy at start is 100 Wh. -/
def session100 : ChargingSession :=
  { id_tag := "TEST", transaction_id := 1, meter_start := 0, start_time := 0,
    total_energy_start := 100, session_energy := 7 }

/-- A charge point holding session100. -/
def cp100 : ChargePoint :=
  { twc := TWCSimulator.init 0, transaction_id := some 1,
    last_session := some session100 }

/-- A meter reading carrying only a cumulative counter of 135 Wh. -/
def reading135 : MeterReading :=
  { sampled_value := [{ measurand := "Energy.Active.Import.Register", value := 135 }] }

/-- A meter reading carrying only a cumulative counter of 90 Wh (a counter
that went backwards relative to the 100 Wh stored at session start). -/
def reading90 : MeterReading :=
  { sampled_value := [{ measurand := "Energy.Active.Import.Register", value := 90 }] }

/-- A reachable simulator in the error state. -/
def errorState : TWCSimulator := (TWCSimulator.init 0).set_error true 0

/-- A simulator with a vehicle connected (still in the unknown state). -/
def connectedState : TWCSimulator :=
  ((TWCSimulator.init 0).set_vehicle_connected true 0).1

/-- A charge point with an active transaction id 100, used to refute the
no-op reading of stop-transaction. -/
def cpTx100 : ChargePoint :=
  { twc := TWCSimulator.init 0, transaction_id := some 100,
    last_session := some sessionTEST }

/-! ## Claim theorems -/

/-- Claim C1 (code bug, evaluation at the failing input): the meter-values
event eventInterval50 carries an explicit Energy.Active.Import.Interval
entry of 50 Wh, yet after handling it the session record still holds
session_energy = 0 and the Vitals Snapshot receives session_energy_wh = 0:
the explicitly reported interval value is dropped instead of being stored
verbatim. -/
theorem c1_interval_energy_not_stored :
    (eventInterval50.any fun r =>
      r.sampled_value.any fun sv =>
        sv.measurand = "Energy.Active.Import.Interval" && sv.value == 50) = true
    ∧ ((cpTEST.on_meter_values 1 eventInterval50 0).last_session.map
        fun ls => ls.session_energy) = some 0
    ∧ (cpTEST.on_meter_values 1 eventInterval50 0).twc.vitals.session_energy_wh = 0 := by
  refine ⟨by decide, by decide, by decide⟩

/-- Claim C2 (code bug, evaluation at the failing input): running the spec
scenario (start with id_tag TEST, meter values with total 50 and explicit
interval 50, stop, start again with TEST) leaves the second session's
session_energy at 0, not at the 50 the spec promises, because the explicit
interval value was never written into the session record. -/
theorem c2_session_restore_scenario_yields_zero :
    (scenarioStop.last_session.map fun ls => ls.id_tag) = some "TEST"
    ∧ (scenarioStart2.last_session.map fun ls => ls.id_tag) = some "TEST"
    ∧ (scenarioStart2.last_session.map fun ls => ls.session_energy) = some 0 := by
  refine ⟨by decide, by decide, by decide⟩

/-- Claim C4, counterexample: a stop-transaction whose transaction_id (999)
differs from the active one (100) is not a no-op — the active transaction is
cleared anyway. -/
theorem c4_nonmatching_stop_not_noop :
    cpTx100.transaction_id = some 100
    ∧ (cpTx100.on_stop_transaction 0 0 999).transaction_id = none := by
  refine ⟨by decide, by decide⟩

/-- Claim C4 as amended: every stop-transaction event, whatever its
transaction_id argument, clears the active transaction and leaves the
remembered last session (and the simulator) unchanged; the remembered
session is retained, not deleted. -/
theorem c4_stop_clears_and_retains (cp : ChargePoint)
    (meter_stop timestamp transaction_id : Int) :
    (cp.on_stop_transaction meter_stop timestamp transaction_id).transaction_id = none
    ∧ (cp.on_stop_transaction meter_stop timestamp transaction_id).last_session
        = cp.last_session
    ∧ (cp.on_stop_transaction meter_stop timestamp transaction_id).twc = cp.twc := by
  refine ⟨rfl, rfl, rfl⟩

/-- Claim C5: set_ocpp_connected(false) always forces the unknown state,
opens the contactor and clears the charge-start time, whatever the prior
state. -/
theorem c5_ocpp_disconnect_forces_unknown (s : TWCSimulator) (now : Int) :
    (s.set_ocpp_connected false now).vitals.evse_state = 0
    ∧ (s.set_ocpp_connected false now).vitals.contactor_closed = false
    ∧ (s.set_ocpp_connected false now).charging_start_time = none := by
  refine ⟨rfl, rfl, rfl⟩

/-- Claim C7: in the error state (4), set_enabled(true) returns false and
leaves the whole simulator — vitals and charge-start time — unchanged; in
every other state set_enabled returns true (for either argument). -/
theorem c7_enable_in_error_fails (s : TWCSimulator) (b : Bool) (now : Int) :
    (s.vitals.evse_state = 4 → s.set_enabled true now = (s, false))
    ∧ (s.vitals.evse_state ≠ 4 → (s.set_enabled b now).2 = true) := by
  constructor
  · intro h
    simp [TWCSimulator.set_enabled, h]
  · intro h
    cases b <;> simp [TWCSimulator.set_enabled, h] <;> split <;> simp

/-- Witness for c7_enable_in_error_fails: the concrete error state refuses
enabling and is left intact, and the fresh simulator (state 0) accepts it. -/
theorem c7_enable_in_error_fails_witness :
    (errorState.set_enabled true 0 = (errorState, false))
    ∧ ((TWCSimulator.init 0).set_enabled true 0).2 = true := by
  exact ⟨(c7_enable_in_error_fails errorState true 0).1 (by decide),
         (c7_enable_in_error_fails (TWCSimulator.init 0) true 0).2 (by decide)⟩

/-- Claim C8: set_vehicle_connected(true) is idempotent — a second call (at
any later instant) returns exactly the state produced by the first, including
the charge-start time. -/
theorem c8_vehicle_connected_idempotent (s : TWCSimulator) (n1 n2 : Int) :
    ((s.set_vehicle_connected true n1).1.set_vehicle_connected true n2).1
      = (s.set_vehicle_connected true n1).1 := by
  by_cases h : s.vitals.evse_state = 2 <;>
    simp [TWCSimulator.set_vehicle_connected, h]

/-- Claim C10: after update_from_client, vehicle_current_a is the sum of the
strictly positive phase currents A, B, C; non-positive phases and the
neutral current do not contribute. -/
theorem c10_vehicle_current_sum_positive (s : TWCSimulator) (power : Rat)
    (currents voltages : PhaseMap) (frequency se te temp : Rat)
    (timestamp : Option Int) (now : Int) :
    (s.update_from_client power currents voltages frequency se te temp
        timestamp now).1.vitals.vehicle_current_a
      = (if 0 < currents.l1 then currents.l1 else 0)
        + (if 0 < currents.l2 then currents.l2 else 0)
        + (if 0 < currents.l3 then currents.l3 else 0) := by
  simp only [TWCSimulator.update_from_client]
  cases s.charging_start_time <;> cases timestamp <;>
    by_cases h1 : 0 < currents.l1 <;> by_cases h2 : 0 < currents.l2 <;>
    by_cases h3 : 0 < currents.l3 <;>
    simp [List.filter, h1, h2, h3] <;> ring

/-- Helper for claim C6: the interval-energy flag stays false over the
processing loop when no sampled value is an Energy.Active.Import.Interval
entry. -/
theorem foldl_no_interval (l : List SampledValue) (acc : ProcessedValues)
    (hno : ∀ sv ∈ l, sv.measurand ≠ "Energy.Active.Import.Interval")
    (hacc : acc.interval_energy_reported = false) :
    (l.foldl process_sampled_value acc).interval_energy_reported = false := by
  induction l generalizing acc with
  | nil => exact hacc
  | cons sv tl ih =>
      simp only [List.foldl_cons]
      have hsv : sv.measurand ≠ "Energy.Active.Import.Interval" :=
        hno sv (List.mem_cons_self _ _)
      refine ih _ (fun x hx => hno x (List.mem_cons_of_mem _ hx)) ?_
      unfold process_sampled_value
      repeat' split
      all_goals simp_all

/-- Claim C6: a meter-values reading with no explicit interval-energy entry,
handled with a session present, stores max(0, total_energy −
total_energy_at_start) as the session's energy. -/
theorem c6_derived_session_energy (cp : ChargePoint) (connector_id : Int)
    (svs : List SampledValue) (timestamp : Option Int) (now : Int)
    (ls : ChargingSession)
    (hsess : cp.last_session = some ls)
    (hno : ∀ sv ∈ svs, sv.measurand ≠ "Energy.Active.Import.Interval") :
    (cp.on_meter_values connector_id
        [{ sampled_value := svs, timestamp := timestamp }] now).last_session
      = some
          { ls with
              session_energy :=
                max 0
                  ((svs.foldl process_sampled_value
                      ({} : ProcessedValues)).total_energy
                    - ls.total_energy_start) } := by
  have hflag := foldl_no_interval svs {} hno rfl
  simp [ChargePoint.on_meter_values, ChargePoint.on_meter_values_reading,
    hflag, hsess]

/-- Witness for c6_derived_session_energy: with total_energy_at_start = 100,
a report of total 135 yields session energy 35 and a report of total 90 is
floored to 0. -/
theorem c6_derived_session_energy_witness :
    (cp100.on_meter_values 1 [reading135] 0).last_session
        = some { session100 with session_energy := 35 }
    ∧ (cp100.on_meter_values 1 [reading90] 0).last_session
        = some { session100 with session_energy := 0 } := by
  constructor
  · refine (c6_derived_session_energy cp100 1 reading135.sampled_value none 0
      session100 rfl (by decide)).trans ?_
    have h1 : ((reading135.sampled_value.foldl process_sampled_value
        ({} : ProcessedValues)).total_energy - session100.total_energy_start)
        = 35 := by
      simp [reading135, session100, process_sampled_value]
      norm_num
    rw [h1]
    norm_num
  · refine (c6_derived_session_energy cp100 1 reading90.sampled_value none 0
      session100 rfl (by decide)).trans ?_
    have h1 : ((reading90.sampled_value.foldl process_sampled_value
        ({} : ProcessedValues)).total_energy - session100.total_energy_start)
        = -10 := by
      simp [reading90, session100, process_sampled_value]
      norm_num
    rw [h1]
    norm_num

/-! ### Preservation of the contactor invariant -/

theorem inv_set_enabled (s : TWCSimulator) (b : Bool) (now : Int) (h : Inv s) :
    Inv (s.set_enabled b now).1 := by
  unfold Inv at h ⊢
  cases b
  · intro hc
    simp [TWCSimulator.set_enabled] at hc
  · by_cases h4 : s.vitals.evse_state = 4
    · simpa [TWCSimulator.set_enabled, h4] using h
    · by_cases hvc : s.vitals.vehicle_connected = true
      · intro hc
        simp [TWCSimulator.set_enabled, h4, hvc]
      · intro hc
        simp [TWCSimulator.set_enabled, h4, hvc] at hc
        exact absurd (h hc).2 hvc

theorem inv_set_vehicle_connected (s : TWCSimulator) (b : Bool) (now : Int)
    (h : Inv s) : Inv (s.set_vehicle_connected b now).1 := by
  unfold Inv at h ⊢
  cases b
  · intro hc
    simp [TWCSimulator.set_vehicle_connected] at hc
    split at hc <;> simp at hc
  · by_cases h2 : s.vitals.evse_state = 2
    · intro hc
      simp [TWCSimulator.set_vehicle_connected, h2]
    · intro hc
      simp [TWCSimulator.set_vehicle_connected, h2] at hc ⊢
      exact (h hc).1

theorem inv_set_error (s : TWCSimulator) (b : Bool) (now : Int) (h : Inv s) :
    Inv (s.set_error b now) := by
  unfold Inv at h ⊢
  cases b
  · by_cases hvc : s.vitals.vehicle_connected = true
    · intro hc
      simp [TWCSimulator.set_error, TWCSimulator.set_enabled, hvc]
    · intro hc
      simp [TWCSimulator.set_error, TWCSimulator.set_enabled, hvc] at hc
      exact absurd (h hc).2 hvc
  · intro hc
    simp [TWCSimulator.set_error] at hc

theorem inv_set_ocpp_connected (s : TWCSimulator) (b : Bool) (now : Int)
    (h : Inv s) : Inv (s.set_ocpp_connected b now) := by
  unfold Inv at h ⊢
  cases b
  · intro hc
    simp [TWCSimulator.set_ocpp_connected] at hc
  · intro hc
    simp [TWCSimulator.set_ocpp_connected] at hc ⊢
    exact h hc

theorem inv_status_notification_twc (s : TWCSimulator) (error_code status : String)
    (now : Int) (h : Inv s) : Inv (status_notification_twc s error_code status now) := by
  unfold status_notification_twc
  split
  · exact inv_set_error s true now h
  · by_cases h1 : status = "Charging"
    · simpa [h1] using
        inv_set_vehicle_connected (s.set_error false now) true now
          (inv_set_error s false now h)
    · by_cases h2 : status = "SuspendedEVSE"
      · intro hc
        simp [h1, h2] at hc
      · by_cases h3 : status = "SuspendedEV"
        · intro hc
          simp [h1, h2, h3] at hc
        · simpa [h1, h2, h3] using
            inv_set_vehicle_connected (s.set_error false now) false now
              (inv_set_error s false now h)

/-- Every reachable simulator state satisfies the contactor invariant. -/
theorem reachable_inv (s : TWCSimulator) (h : Reachable s) : Inv s := by
  induction h with
  | init now =>
      intro hc
      simp [TWCSimulator.init] at hc
  | set_enabled s b now hr ih => exact inv_set_enabled s b now ih
  | set_vehicle_connected s b now hr ih => exact inv_set_vehicle_connected s b now ih
  | set_error s b now hr ih => exact inv_set_error s b now ih
  | set_ocpp_connected s b now hr ih => exact inv_set_ocpp_connected s b now ih
  | status_notification s ec st now hr ih => exact inv_status_notification_twc s ec st now ih

/-- Claim C3: in every state reachable from the initial simulator through
set_enabled, set_vehicle_connected, set_error, set_ocpp_connected and
status-notification handling, a closed contactor implies the charging state
(evse_state = 3). -/
theorem c3_contactor_implies_charging (s : TWCSimulator) (h : Reachable s)
    (hc : s.vitals.contactor_closed = true) : s.vitals.evse_state = 3 :=
  (reachable_inv s h hc).1

/-- Witness for c3_contactor_implies_charging: the concrete reachable state
obtained by connecting a vehicle and enabling has a closed contactor, and the
theorem yields evse_state = 3 there. -/
theorem c3_contactor_implies_charging_witness :
    chargingState.vitals.contactor_closed = true
    ∧ chargingState.vitals.evse_state = 3 := by
  refine ⟨by decide, c3_contactor_implies_charging chargingState ?_ (by decide)⟩
  exact Reachable.set_enabled _ true 0
    (Reachable.set_vehicle_connected _ true 0 (Reachable.init 0))

/-- Claim C9: handling a NoError status notification carrying SuspendedEVSE
or SuspendedEV while a vehicle is connected leaves evse_state = ready (2)
with the contactor open, but the charge-start time stays set (the
intermediate error-clear re-enable sets it when it was unset), so a
subsequent client update with a timestamp computes session_s from that start
time instead of resetting it to 0. -/
theorem c9_suspended_keeps_charge_start (s : TWCSimulator) (st : String)
    (now now2 charge_time : Int) (power : Rat) (currents voltages : PhaseMap)
    (frequency se te temp : Rat)
    (hvc : s.vitals.vehicle_connected = true)
    (hst : st = "SuspendedEVSE" ∨ st = "SuspendedEV") :
    (status_notification_twc s "NoError" st now).vitals.evse_state = 2
    ∧ (status_notification_twc s "NoError" st now).vitals.contactor_closed = false
    ∧ (status_notification_twc s "NoError" st now).charging_start_time
        = some (s.charging_start_time.getD now)
    ∧ ((status_notification_twc s "NoError" st now).update_from_client power
        currents voltages frequency se te temp (some charge_time)
        now2).1.vitals.session_s
        = charge_time - s.charging_start_time.getD now := by
  rcases hst with rfl | rfl <;>
    cases hcst : s.charging_start_time <;>
      simp [status_notification_twc, TWCSimulator.set_error,
        TWCSimulator.set_enabled, TWCSimulator.set_vehicle_connected,
        TWCSimulator.update_from_client, hvc, hcst]

/-- Witness for c9_suspended_keeps_charge_start: from the concrete connected
state (charge-start time unset), a SuspendedEVSE notification at instant 5
yields ready with contactor open, keeps charge-start time 5, and a client
update stamped 105 computes session_s = 100 rather than 0. -/
theorem c9_suspended_keeps_charge_start_witness :
    (status_notification_twc connectedState "NoError" "SuspendedEVSE" 5).vitals.evse_state = 2
    ∧ (status_notification_twc connectedState "NoError" "SuspendedEVSE" 5).vitals.contactor_closed = false
    ∧ (status_notification_twc connectedState "NoError" "SuspendedEVSE" 5).charging_start_time = some 5
    ∧ ((status_notification_twc connectedState "NoError" "SuspendedEVSE" 5).update_from_client
        0 {} {} 50 0 0 20 (some 105) 0).1.vitals.session_s = 100 := by
  have h := c9_suspended_keeps_charge_start connectedState "SuspendedEVSE"
    5 0 105 0 {} {} 50 0 0 20 (by decide) (Or.inl rfl)
  exact ⟨h.1, h.2.1, h.2.2.1.trans (by decide), h.2.2.2.trans (by decide)⟩

end Ocpp2Twc
